import Mathlib

/-!
Shallow embedding of the GitHub MCP client (`src/github/client.ts`) of the
`obsidian-github-mcp` repository: the search query builder, the result
formatter, the zero-result diagnostics engine, and the commit-history
formatter, together with theorems checking the specification claims.

Strings are modelled as Lean `String` (lists of characters); JavaScript
string built-ins (`includes`, `toLowerCase`, `substring`, `split`) are
embedded as functions over the character list. Remote API calls are
modelled as explicit inputs: a call that can fail is an `Except String`
value, and the commit-list / commit-detail endpoints are oracles passed
as functions.
-/

/-- JS `haystack.includes(needle)`: substring containment test. -/
def strIncludes (s sub : String) : Bool := decide (sub.data <:+: s.data)

/-- JS `s.toLowerCase()` (ASCII case mapping, which covers every input the
claims exercise). -/
def jsToLower (s : String) : String := String.mk (s.data.map Char.toLower)

/-- JS `s.substring(start, stop)` on character positions. -/
def jsSubstring (s : String) (start stop : Nat) : String :=
  String.mk ((s.data.drop start).take (stop - start))

/-- JS `s.split("\n")[0]`: the text before the first newline. -/
def firstLine (s : String) : String := String.mk (s.data.takeWhile (fun c => c ≠ '\n'))

/-- JS `x.toFixed(prec)` for the nonnegative rationals produced by the
repository-size computation: round half up at `prec` decimal digits. -/
def ratToFixed (x : ℚ) (prec : Nat) : String :=
  let n : ℕ := (⌊x * (10 : ℚ) ^ prec + 1 / 2⌋).toNat
  toString (n / 10 ^ prec) ++ "." ++
    String.mk (List.replicate (prec - (toString (n % 10 ^ prec)).length) '0') ++
    toString (n % 10 ^ prec)

/-- `GithubConfig` from `src/github/types.ts` (shape as used by the client
and its tests): token plus repository identity. -/
structure GithubConfig where
  githubToken : String
  owner : String
  repo : String
deriving DecidableEq

/-- One item of a code-search response: `{ name, path }` (client.ts:255-258). -/
structure SearchResultItem where
  name : String
  path : String
deriving DecidableEq

/-- A code-search response: items plus `total_count` (client.ts:255-258). -/
structure SearchResults where
  items : List SearchResultItem
  total_count : Nat
deriving DecidableEq

/-- Repository metadata returned by `octokit.repos.get` as consumed by the
diagnostics (client.ts:68-76): `size` (KB), `private`, `default_branch`.
The `private` field is renamed `isPrivate` because `private` is a Lean
keyword. -/
structure RepoInfo where
  size : Nat
  isPrivate : Bool
  default_branch : String
deriving DecidableEq

/-- `handleRequest` (client.ts:17-29): passes data through and wraps any
failure message with the `GitHub API error: ` prefix. -/
def handleRequest {α : Type} (request : Except String α) : Except String α :=
  match request with
  | .ok data => .ok data
  | .error msg => .error ("GitHub API error: " ++ msg)

/-- The `searchIn` enum of the `searchFiles` tool (client.ts:209-215). -/
inductive SearchIn where
  | filename
  | path
  | content
  | all
deriving DecidableEq

/-- The string form of a `searchIn` value (it is a string enum in the source). -/
def SearchIn.str : SearchIn → String
  | .filename => "filename"
  | .path => "path"
  | .content => "content"
  | .all => "all"

/-- `repoQualifier` (client.ts:229). -/
def repoQualifier (cfg : GithubConfig) : String :=
  "repo:" ++ cfg.owner ++ "/" ++ cfg.repo

/-- `qualifiedQuery` construction of the `searchFiles` handler
(client.ts:232-253): mode-specific qualifiers around the raw query,
always ending in the repository scope qualifier. -/
def qualifiedQuery (cfg : GithubConfig) (query : String) (searchIn : SearchIn) : String :=
  match searchIn with
  | .filename =>
      "filename:" ++ (if strIncludes query " " then "\"" ++ query ++ "\"" else query) ++
        " " ++ repoQualifier cfg
  | .path => query ++ " in:path " ++ repoQualifier cfg
  | .content => query ++ " " ++ repoQualifier cfg
  | .all => query ++ " in:file,path " ++ repoQualifier cfg

/-- The successful diagnostics record built at client.ts:72-81. -/
structure DiagSuccess where
  repoSize : Nat
  repoSizeGB : ℚ
  isPrivate : Bool
  defaultBranch : String
  basicSearchWorks : Bool
  filesFound : Nat
  repoIndexed : Bool
  isLarge : Bool

/-- The two shapes `runSearchDiagnostics` can return (client.ts:32-87):
either the full report, or only a `diagnosticError` message. -/
inductive Diagnostics where
  | failed (diagnosticError : String)
  | ok (report : DiagSuccess)

/-- `runSearchDiagnostics` (client.ts:32-87). The repository probe and the
baseline search probe are the two remote calls, given here as inputs. A
failing repository probe short-circuits to the `failed` shape; a failing
baseline probe is recorded as `basicSearchWorks := false` and the report
still completes. -/
def runSearchDiagnostics (repoProbe : Except String RepoInfo)
    (basicProbe : Except String SearchResults) : Diagnostics :=
  match handleRequest repoProbe with
  | .error e => .failed e
  | .ok repoInfo =>
      let basic : Bool × Nat :=
        match handleRequest basicProbe with
        | .ok basicTest => (true, basicTest.total_count)
        | .error _ => (false, 0)
      let repoSizeKB := repoInfo.size
      let repoSizeGB : ℚ := (repoSizeKB : ℚ) / (1024 * 1024)
      let isLarge : Bool := decide ((50 : ℚ) < repoSizeGB)
      .ok {
        repoSize := repoSizeKB
        repoSizeGB := repoSizeGB
        isPrivate := repoInfo.isPrivate
        defaultBranch := repoInfo.default_branch
        basicSearchWorks := basic.1
        filesFound := basic.2
        repoIndexed := basic.1 && decide (0 < basic.2)
        isLarge := isLarge }

/-- Header of the no-results response (client.ts:104-108). -/
def noResultsHeader (query : String) (searchIn : SearchIn) : String :=
  "Found 0 files matching \"" ++ query ++ "\"" ++
    (match searchIn with | .all => "" | s => " in " ++ s.str) ++ "\n\n"

/-- The `Search System Issue` branch of the no-results response
(client.ts:110-111). -/
def systemIssueSection (diagnosticError : String) : String :=
  "⚠️ **Search System Issue**: " ++ diagnosticError ++ "\n\n"

/-- The `Repository May Not Be Indexed` branch of the no-results response
(client.ts:112-128); the size-limit line is emitted only when `isLarge`,
the private-repository line only when `isPrivate`. -/
def notIndexedSection (isLarge : Bool) (repoSizeGB : ℚ) (isPrivate : Bool) : String :=
  "⚠️ **Repository May Not Be Indexed**: GitHub might not have indexed this repository for search.\nThis can happen with:\n- New repositories (indexing takes time)\n" ++
    (if isLarge then
      "- Large repositories (" ++ ratToFixed repoSizeGB 2 ++ " GB exceeds 50 GB limit)\n"
    else "") ++
    (if isPrivate then "- Private repositories with indexing issues\n" else "") ++
    "\n**Try**:\n- Search directly on GitHub.com to confirm\n- Use the diagnoseSearch tool for detailed diagnostics\n\n"

/-- The `Search Debug Info` branch of the no-results response
(client.ts:129-143), used when the repository is indexed. -/
def debugSection (isPrivate : Bool) (repoSizeGB : ℚ) (defaultBranch : String)
    (filesFound : Nat) (query : String) : String :=
  "📊 **Search Debug Info**:\n- Repository: " ++
    (if isPrivate then "Private" else "Public") ++
    " (" ++ ratToFixed repoSizeGB 3 ++ " GB)\n- Default branch: " ++ defaultBranch ++
    " (only branch searchable)\n- Files in repo: " ++ toString filesFound ++
    " found\n- Search query used: `" ++ query ++
    "`\n\n**Possible reasons for no results**:\n- The search term doesn\x27t exist in the repository\n- Content might be in non-default branches (not searchable)\n- Files might be larger than 384 KB (not indexed)\n\n"

/-- The fixed search-tips block appended to every no-results response
(client.ts:145-152). -/
def searchTips : String :=
  "💡 **Search Tips:**\n- Try `searchIn: \"filename\"` to search only filenames\n- Try `searchIn: \"path\"` to search file paths\n- Try `searchIn: \"content\"` to search file contents\n- Use quotes for exact phrases: \"exact phrase\"\n- Use wildcards: `*.md` for markdown files\n- Try simpler or partial search terms"

/-- `formatNoResultsResponse` (client.ts:90-162): header, then one of the
three diagnostic branches, then the fixed tips block. -/
def formatNoResultsResponse (diagnostics : Diagnostics) (query : String)
    (searchIn : SearchIn) : String :=
  noResultsHeader query searchIn ++
    (match diagnostics with
     | .failed e => systemIssueSection e
     | .ok s =>
        if s.repoIndexed then debugSection s.isPrivate s.repoSizeGB s.defaultBranch s.filesFound query
        else notIndexedSection s.isLarge s.repoSizeGB s.isPrivate) ++
    searchTips

/-- `matchReason` computation of the `searchFiles` handler
(client.ts:299-316): fixed label in the three specific modes; in `all`
mode inferred case-insensitively, filename first, then path, else content. -/
def matchReason (searchIn : SearchIn) (query fileName filePath : String) : String :=
  match searchIn with
  | .filename => "📝 filename match"
  | .path => "📁 path match"
  | .content => "📄 content match"
  | .all =>
      if strIncludes (jsToLower fileName) (jsToLower query) then "📝 filename match"
      else if strIncludes (jsToLower filePath) (jsToLower query) then "📁 path match"
      else "📄 content match"

/-- `formattedResults` (client.ts:293-320): one bullet line per item, in
response order, joined with newlines. -/
def formattedResults (searchIn : SearchIn) (query : String)
    (items : List SearchResultItem) : String :=
  String.intercalate "\n" (items.map (fun item =>
    "- **" ++ item.name ++ "** (" ++ item.path ++ ") " ++
      matchReason searchIn query item.name item.path))

/-- `resultText` (client.ts:322-326): count header plus formatted bullet list. -/
def resultText (searchIn : SearchIn) (query : String) (total : Nat)
    (items : List SearchResultItem) : String :=
  "Found " ++ toString total ++ " files" ++
    (match searchIn with | .all => "" | s => " searching in " ++ s.str) ++
    ":\n\n" ++ formattedResults searchIn query items

/-- The catch block of the `searchFiles` handler (client.ts:267-290):
pattern-match the failure message and rethrow targeted guidance. -/
def enhanceSearchError (errorMessage qualified : String) : String :=
  if strIncludes errorMessage "validation failed" then
    "GitHub search query invalid: \"" ++ qualified ++ "\". Try simpler terms or check syntax."
  else if strIncludes errorMessage "rate limit" then
    "GitHub code search rate limit exceeded. Wait a moment and try again."
  else if strIncludes errorMessage "Forbidden" || strIncludes errorMessage "401" then
    "GitHub API access denied. Check that your token has \x27repo\x27 scope for private repositories."
  else errorMessage

/-- The `searchFiles` tool handler (client.ts:227-347). The code-search
response and the two diagnostic probes are the remote calls, given as
inputs; the result is the produced text, or the thrown message. When the
search reports zero matches the diagnostics run and their report is
formatted; otherwise the plain listing is returned. -/
def searchFiles (cfg : GithubConfig) (query : String) (searchIn : SearchIn)
    (searchResponse : Except String SearchResults)
    (repoProbe : Except String RepoInfo)
    (basicProbe : Except String SearchResults) : Except String String :=
  match handleRequest searchResponse with
  | .error errorMessage =>
      .error (enhanceSearchError errorMessage (qualifiedQuery cfg query searchIn))
  | .ok searchResults =>
      if searchResults.total_count = 0 then
        .ok (formatNoResultsResponse (runSearchDiagnostics repoProbe basicProbe)
              query searchIn)
      else
        .ok (resultText searchIn query searchResults.total_count searchResults.items)

/-- Commit author metadata (`commit.commit.author`) used by the formatter
(client.ts:484-485, 528-529). -/
structure CommitAuthor where
  name : String
  email : String
  date : String
deriving DecidableEq

/-- The `commit` payload of a commit record: message and optional author. -/
structure CommitData where
  message : String
  author : Option CommitAuthor
deriving DecidableEq

/-- One entry of the `listCommits` response. -/
structure CommitSummary where
  sha : String
  commit : CommitData
deriving DecidableEq

/-- One changed file of a detailed commit (client.ts:488-514); `patch` is
absent for binary files. -/
structure FileChange where
  filename : String
  additions : Nat
  deletions : Nat
  patch : Option String
deriving DecidableEq

/-- A `getCommit` detail response: sha, commit payload, changed files. -/
structure DetailedCommit where
  sha : String
  commit : CommitData
  files : List FileChange
deriving DecidableEq

/-- The request issued to `octokit.repos.listCommits` (client.ts:432-441).
The `author` argument of the tool is commented out in the source and is
therefore not a field of the request. -/
structure ListCommitsRequest where
  owner : String
  repo : String
  since : String
  page : Nat
  per_page : Nat
deriving DecidableEq

/-- The commit-list request built by the handler (client.ts:433-440):
`per_page` is `maxCommits`. -/
def commitListRequest (cfg : GithubConfig) (sinceISO : String)
    (page maxCommits : Nat) : ListCommitsRequest :=
  { owner := cfg.owner, repo := cfg.repo, since := sinceISO
    page := page, per_page := maxCommits }

/-- JS optional chaining `author?.f` rendered into a template literal:
`undefined` prints literally when the author is absent. -/
def optAuthorField (author : Option CommitAuthor) (f : CommitAuthor → String) : String :=
  match author with
  | some a => f a
  | none => "undefined"

/-- Commit URL construction (client.ts:480, 524). -/
def commitUrl (cfg : GithubConfig) (sha : String) : String :=
  "https://github.com/" ++ cfg.owner ++ "/" ++ cfg.repo ++ "/commit/" ++ sha

/-- Patch truncation (client.ts:499-508): a patch longer than 8000
characters is cut to its first 8000 characters plus a marker. -/
def truncatePatch (patch : String) : String :=
  if 8000 < patch.length then
    jsSubstring patch 0 8000 ++ "\n\n... (diff truncated for readability) ..."
  else patch

/-- Per-file diff block (client.ts:497-514). JS tests `if (file.patch)`,
so an absent or empty patch both yield the no-diff note. -/
def fileChangeText (file : FileChange) : String :=
  "#### " ++ file.filename ++ "\n" ++
    (match file.patch with
     | some p =>
        if p.isEmpty then "_No diff available (binary file or no changes to display)_\n\n"
        else "```diff\n" ++ truncatePatch p ++ "\n```\n\n"
     | none => "_No diff available (binary file or no changes to display)_\n\n")

/-- Shared commit metadata lines (client.ts:483-486, 527-530). -/
def commitMetaText (cfg : GithubConfig) (sha : String) (c : CommitData) : String :=
  "**" ++ firstLine c.message ++ "**\n" ++
    "Author: " ++ optAuthorField c.author (fun a => a.name) ++ " <" ++
    optAuthorField c.author (fun a => a.email) ++ ">\n" ++
    "Date: " ++ optAuthorField c.author (fun a => a.date) ++ "\n" ++
    "URL: " ++ commitUrl cfg sha ++ "\n\n"

/-- Formatting of one detailed commit with diffs (client.ts:478-519). -/
def detailedCommitText (cfg : GithubConfig) (commit : DetailedCommit) : String :=
  "## Commit " ++ jsSubstring commit.sha 0 7 ++ " (" ++ commit.sha ++ ")\n" ++
    commitMetaText cfg commit.sha commit.commit ++
    (if commit.files.isEmpty then "No file changes detected.\n\n"
     else
      "### Files Changed (" ++ toString commit.files.length ++ "):\n" ++
        String.join (commit.files.map (fun file =>
          "- " ++ file.filename ++ " (+" ++ toString file.additions ++ ", -" ++
            toString file.deletions ++ ")\n")) ++
        "\n### File Changes:\n\n" ++
        String.join (commit.files.map fileChangeText)) ++
    "---\n\n"

/-- Formatting of one commit without diffs (client.ts:522-531). -/
def summaryCommitText (cfg : GithubConfig) (commit : CommitSummary) : String :=
  "## Commit " ++ jsSubstring commit.sha 0 7 ++ "\n" ++
    commitMetaText cfg commit.sha commit.commit

/-- The `author ? suffix : ""` display suffixes (client.ts:448-449,
458-459); an empty author string is falsy in JS. -/
def authorSuffix (pre : String) (author : Option String) : String :=
  match author with
  | some a => if a.isEmpty then "" else pre ++ a
  | none => ""

/-- The first line (or whole no-commits message) of the `getCommitHistory`
output (client.ts:443-460): the only places the `author` argument reaches. -/
def getCommitHistoryHead (days : Nat) (sinceISO : String) (author : Option String)
    (commits : List CommitSummary) : String :=
  if commits.isEmpty then
    "No commits found in the last " ++ toString days ++ " days since " ++ sinceISO ++
      authorSuffix " from author " author ++ "."
  else
    "Found " ++ toString commits.length ++ " commits in the last " ++ toString days ++
      " days" ++ authorSuffix " from " author ++ ":\n\n"

/-- The commit listing below the header (client.ts:462-532); it does not
take the `author` argument because the source never uses it there. -/
def getCommitHistoryBody (cfg : GithubConfig) (includeDiffs : Bool) (maxCommits : Nat)
    (detailFetch : String → DetailedCommit) (commits : List CommitSummary) : String :=
  if commits.isEmpty then ""
  else if includeDiffs then
    String.join ((commits.take maxCommits).map (fun c => detailedCommitText cfg (detailFetch c.sha)))
  else
    String.join (commits.map (fun c => summaryCommitText cfg c))

/-- The `getCommitHistory` tool handler (client.ts:417-543). The clock is
abstracted into the precomputed `sinceISO`; the commit-list endpoint and
the per-commit detail endpoint are oracles given as functions (their
responses modelled as successful, since no claim concerns their failure).
Returns the issued commit-list request together with the produced text. -/
def getCommitHistory (cfg : GithubConfig) (days : Nat) (includeDiffs : Bool)
    (author : Option String) (maxCommits page : Nat) (sinceISO : String)
    (listCommits : ListCommitsRequest → List CommitSummary)
    (detailFetch : String → DetailedCommit) : ListCommitsRequest × String :=
  let req := commitListRequest cfg sinceISO page maxCommits
  let commits := listCommits req
  (req,
    if commits.isEmpty then
      "No commits found in the last " ++ toString days ++ " days since " ++ sinceISO ++
        authorSuffix " from author " author ++ "."
    else
      ("Found " ++ toString commits.length ++ " commits in the last " ++ toString days ++
        " days" ++ authorSuffix " from " author ++ ":\n\n") ++
      (if includeDiffs then
        String.join ((commits.take maxCommits).map (fun c => detailedCommitText cfg (detailFetch c.sha)))
      else
        String.join (commits.map (fun c => summaryCommitText cfg c))))

/-- String append is associative (data-level proof). -/
theorem str_append_assoc (a b c : String) : a ++ b ++ c = a ++ (b ++ c) :=
  String.ext (by simp [String.data_append, List.append_assoc])

/-- Appending the empty string on the right is the identity. -/
theorem str_append_empty (s : String) : s ++ "" = s :=
  String.ext (by simp [String.data_append])

/-- `strIncludes` decides the infix relation on the character lists. -/
theorem strIncludes_iff (s sub : String) : strIncludes s sub = true ↔ sub.data <:+: s.data := by
  simp [strIncludes]

/-- A singleton list is an infix exactly when its element occurs. -/
theorem singleton_infix_iff (c : Char) (l : List Char) : [c] <:+: l ↔ c ∈ l := by
  constructor
  · intro h
    exact h.subset (by simp)
  · intro h
    obtain ⟨s, t, hst⟩ := List.append_of_mem h
    exact ⟨s, t, by rw [hst]; simp⟩

/-- Claim C1: in filename mode the query builder produces exactly
`filename:<token> repo:<owner>/<repo>`, where the token is the raw query
wrapped in double quotes if and only if it contains a space character,
and the raw query verbatim otherwise; the quoted and unquoted outputs
are distinct, and both spec examples evaluate as stated. -/
theorem qualifiedQuery_filename_spec (cfg : GithubConfig) (q : String) :
    (strIncludes q " " = true →
       qualifiedQuery cfg q SearchIn.filename
         = "filename:" ++ ("\"" ++ q ++ "\"") ++ " " ++ ("repo:" ++ cfg.owner ++ "/" ++ cfg.repo)) ∧
    (strIncludes q " " = false →
       qualifiedQuery cfg q SearchIn.filename
         = "filename:" ++ q ++ " " ++ ("repo:" ++ cfg.owner ++ "/" ++ cfg.repo)) ∧
    (strIncludes q " " = true ↔ ' ' ∈ q.data) ∧
    ("filename:" ++ q ++ " " ++ ("repo:" ++ cfg.owner ++ "/" ++ cfg.repo)
       ≠ "filename:" ++ ("\"" ++ q ++ "\"") ++ " " ++ ("repo:" ++ cfg.owner ++ "/" ++ cfg.repo)) ∧
    qualifiedQuery ⟨"t", "owner", "repo"⟩ "My File.md" SearchIn.filename
      = "filename:\"My File.md\" repo:owner/repo" ∧
    qualifiedQuery ⟨"t", "owner", "repo"⟩ "File.md" SearchIn.filename
      = "filename:File.md repo:owner/repo" := by
  refine ⟨?_, ?_, ?_, ?_, by decide, by decide⟩
  · intro h
    simp [qualifiedQuery, repoQualifier, h]
  · intro h
    simp [qualifiedQuery, repoQualifier, h]
  · rw [strIncludes_iff]
    exact singleton_infix_iff ' ' q.data
  · intro h
    have hl := congrArg String.length h
    simp only [String.length_append] at hl
    have h1 : ("\"" : String).length = 1 := rfl
    simp only [h1] at hl
    omega

/-- Witness for C1 at the concrete inputs of the spec examples. -/
theorem qualifiedQuery_filename_spec_witness :
    qualifiedQuery ⟨"t", "o", "r"⟩ "My File.md" SearchIn.filename
      = "filename:" ++ ("\"" ++ "My File.md" ++ "\"") ++ " " ++ ("repo:" ++ "o" ++ "/" ++ "r") :=
  (qualifiedQuery_filename_spec ⟨"t", "o", "r"⟩ "My File.md").1 (by decide)

/-- Claim C2: the query builder produces exactly
`<rawQuery> in:path repo:<owner>/<repo>` in path mode,
`<rawQuery> repo:<owner>/<repo>` in content mode, and
`<rawQuery> in:file,path repo:<owner>/<repo>` in all mode, as checked both
in general and on the concrete spec examples. -/
theorem qualifiedQuery_modes_spec (cfg : GithubConfig) (q : String) :
    qualifiedQuery cfg q SearchIn.path
      = q ++ " in:path " ++ ("repo:" ++ cfg.owner ++ "/" ++ cfg.repo) ∧
    qualifiedQuery cfg q SearchIn.content
      = q ++ " " ++ ("repo:" ++ cfg.owner ++ "/" ++ cfg.repo) ∧
    qualifiedQuery cfg q SearchIn.all
      = q ++ " in:file,path " ++ ("repo:" ++ cfg.owner ++ "/" ++ cfg.repo) ∧
    qualifiedQuery ⟨"t", "owner", "repo"⟩ "notes" SearchIn.path
      = "notes in:path repo:owner/repo" ∧
    qualifiedQuery ⟨"t", "owner", "repo"⟩ "x" SearchIn.content
      = "x repo:owner/repo" ∧
    qualifiedQuery ⟨"t", "owner", "repo"⟩ "x" SearchIn.all
      = "x in:file,path repo:owner/repo" :=
  ⟨rfl, rfl, rfl, by decide, by decide, by decide⟩

/-- Claim C3: in `all` mode the match reason is derived case-insensitively
with the fixed tie-break order filename, then path, then content; the item
`OKR.md` at `notes/OKR.md` under raw query `OKR` is tagged a filename
match; and in the three specific modes the reason is fixed to that mode. -/
theorem matchReason_spec :
    (∀ q n p, strIncludes (jsToLower n) (jsToLower q) = true →
        matchReason SearchIn.all q n p = "📝 filename match") ∧
    (∀ q n p, strIncludes (jsToLower n) (jsToLower q) = false →
        strIncludes (jsToLower p) (jsToLower q) = true →
        matchReason SearchIn.all q n p = "📁 path match") ∧
    (∀ q n p, strIncludes (jsToLower n) (jsToLower q) = false →
        strIncludes (jsToLower p) (jsToLower q) = false →
        matchReason SearchIn.all q n p = "📄 content match") ∧
    matchReason SearchIn.all "OKR" "OKR.md" "notes/OKR.md" = "📝 filename match" ∧
    (∀ q n p, matchReason SearchIn.filename q n p = "📝 filename match") ∧
    (∀ q n p, matchReason SearchIn.path q n p = "📁 path match") ∧
    (∀ q n p, matchReason SearchIn.content q n p = "📄 content match") := by
  refine ⟨?_, ?_, ?_, by decide, fun q n p => rfl, fun q n p => rfl, fun q n p => rfl⟩
  · intro q n p h
    simp [matchReason, h]
  · intro q n p h1 h2
    simp [matchReason, h1, h2]
  · intro q n p h1 h2
    simp [matchReason, h1, h2]

/-- Witness for C3: a path-only match is tagged `path`, by the theorem. -/
theorem matchReason_spec_witness :
    matchReason SearchIn.all "okr" "notes.txt" "okr/notes.txt" = "📁 path match" :=
  matchReason_spec.2.1 "okr" "notes.txt" "okr/notes.txt" (by decide) (by decide)

/-- A needle written as an explicit middle append atom is included. -/
theorem strIncludes_append_middle (a m b : String) : strIncludes (a ++ m ++ b) m = true := by
  rw [strIncludes_iff]
  exact ⟨a.data, b.data, by simp [String.data_append]⟩

set_option maxRecDepth 40000 in
/-- With `isLarge` set, the not-indexed section carries the 50 GB line. -/
theorem notIndexedSection_large_includes (gb : ℚ) (priv : Bool) :
    strIncludes (notIndexedSection true gb priv) "exceeds 50 GB limit" = true := by
  have lit : (" GB exceeds 50 GB limit)\n" : String).data
      = (" GB " : String).data ++ (("exceeds 50 GB limit" : String).data ++ (")\n" : String).data) := by
    decide
  have e : notIndexedSection true gb priv
      = ("⚠️ **Repository May Not Be Indexed**: GitHub might not have indexed this repository for search.\nThis can happen with:\n- New repositories (indexing takes time)\n"
          ++ "- Large repositories (" ++ ratToFixed gb 2 ++ " GB ")
        ++ "exceeds 50 GB limit"
        ++ (")\n" ++ (if priv then "- Private repositories with indexing issues\n" else "")
            ++ "\n**Try**:\n- Search directly on GitHub.com to confirm\n- Use the diagnoseSearch tool for detailed diagnostics\n\n") := by
    apply String.ext
    simp [notIndexedSection, String.data_append, List.append_assoc, lit]
  rw [e]
  exact strIncludes_append_middle _ _ _

set_option maxRecDepth 40000 in
/-- Without `isLarge`, the not-indexed section has no 50 GB line. -/
theorem notIndexedSection_small_excludes (gb : ℚ) (priv : Bool) :
    strIncludes (notIndexedSection false gb priv) "exceeds 50 GB limit" = false := by
  have e0 : notIndexedSection false gb false
      = "⚠️ **Repository May Not Be Indexed**: GitHub might not have indexed this repository for search.\nThis can happen with:\n- New repositories (indexing takes time)\n"
        ++ "" ++ ""
        ++ "\n**Try**:\n- Search directly on GitHub.com to confirm\n- Use the diagnoseSearch tool for detailed diagnostics\n\n" := rfl
  have e1 : notIndexedSection false gb true
      = "⚠️ **Repository May Not Be Indexed**: GitHub might not have indexed this repository for search.\nThis can happen with:\n- New repositories (indexing takes time)\n"
        ++ "" ++ "- Private repositories with indexing issues\n"
        ++ "\n**Try**:\n- Search directly on GitHub.com to confirm\n- Use the diagnoseSearch tool for detailed diagnostics\n\n" := rfl
  cases priv
  · rw [e0]; decide
  · rw [e1]; decide

/-- The successful-diagnostics record, with its fields, for any baseline
probe outcome. -/
theorem runSearchDiagnostics_ok (info : RepoInfo) (bp : Except String SearchResults) :
    ∃ d, runSearchDiagnostics (Except.ok info) bp = Diagnostics.ok d ∧
      d.repoSizeGB = (info.size : ℚ) / (1024 * 1024) ∧
      d.isLarge = decide ((50 : ℚ) < (info.size : ℚ) / (1024 * 1024)) ∧
      d.isPrivate = info.isPrivate := by
  cases bp with
  | ok r => exact ⟨_, rfl, rfl, rfl, rfl⟩
  | error m => exact ⟨_, rfl, rfl, rfl, rfl⟩

/-- Claim C5: a failing repository probe short-circuits the diagnostics to
a report carrying only the error message, whatever the baseline probe
would have returned, and the no-results response then takes the
`Search System Issue` branch. -/
theorem runSearchDiagnostics_repo_failure (m q : String) (si : SearchIn)
    (basicProbe : Except String SearchResults) :
    runSearchDiagnostics (Except.error m) basicProbe
      = Diagnostics.failed ("GitHub API error: " ++ m) ∧
    (∀ e, formatNoResultsResponse (Diagnostics.failed e) q si
        = noResultsHeader q si ++ systemIssueSection e ++ searchTips) :=
  ⟨rfl, fun _ => rfl⟩

/-- Claim C6: a failing baseline probe does not abort the diagnosis — it is
recorded as `basicSearchWorks := false` (hence `repoIndexed := false`)
inside a normally returned report; and for every probe combination the
engine returns a report in which each probe failure appears as data. -/
theorem runSearchDiagnostics_baseline_failure (info : RepoInfo) (e : String) :
    runSearchDiagnostics (Except.ok info) (Except.error e)
      = Diagnostics.ok
          { repoSize := info.size
            repoSizeGB := (info.size : ℚ) / (1024 * 1024)
            isPrivate := info.isPrivate
            defaultBranch := info.default_branch
            basicSearchWorks := false
            filesFound := 0
            repoIndexed := false
            isLarge := decide ((50 : ℚ) < (info.size : ℚ) / (1024 * 1024)) } ∧
    (∀ (rp : Except String RepoInfo) (bp : Except String SearchResults),
       (∀ m, rp = Except.error m →
          runSearchDiagnostics rp bp = Diagnostics.failed ("GitHub API error: " ++ m)) ∧
       (∀ i, rp = Except.ok i →
          ∃ d, runSearchDiagnostics rp bp = Diagnostics.ok d)) := by
  constructor
  · rfl
  · intro rp bp
    constructor
    · intro m hm
      subst hm
      rfl
    · intro i hi
      subst hi
      cases bp with
      | ok r => exact ⟨_, rfl⟩
      | error msg => exact ⟨_, rfl⟩

/-- Witness for C6 at a concrete repository and a failing baseline probe. -/
theorem runSearchDiagnostics_baseline_failure_witness :
    runSearchDiagnostics (Except.ok ⟨102400, true, "main"⟩) (Except.error "boom")
      = Diagnostics.ok
          { repoSize := 102400
            repoSizeGB := (102400 : ℚ) / (1024 * 1024)
            isPrivate := true
            defaultBranch := "main"
            basicSearchWorks := false
            filesFound := 0
            repoIndexed := false
            isLarge := decide ((50 : ℚ) < (102400 : ℚ) / (1024 * 1024)) } :=
  (runSearchDiagnostics_baseline_failure ⟨102400, true, "main"⟩ "boom").1

/-- Claim C7: the diagnostics compute `repoSizeGB = repoSizeKB / 1048576`
and `isLarge` exactly when that exceeds 50; at `repoSizeKB = 60*1024*1024`
the flag is set and the not-indexed section mentions the 50 GB limit; and
the size-limit line appears in that section if and only if `isLarge`,
which is the branch the no-results response takes when the repository is
not indexed. -/
theorem runSearchDiagnostics_size_spec (info : RepoInfo) (bp : Except String SearchResults) :
    (∃ d, runSearchDiagnostics (Except.ok info) bp = Diagnostics.ok d ∧
       d.repoSizeGB = (info.size : ℚ) / 1048576 ∧
       d.isLarge = decide ((50 : ℚ) < (info.size : ℚ) / 1048576)) ∧
    (info.size = 60 * 1024 * 1024 →
       ∃ d, runSearchDiagnostics (Except.ok info) bp = Diagnostics.ok d ∧
         d.isLarge = true ∧
         strIncludes (notIndexedSection d.isLarge d.repoSizeGB d.isPrivate)
           "exceeds 50 GB limit" = true) ∧
    (∀ (gb : ℚ) (priv : Bool),
       strIncludes (notIndexedSection true gb priv) "exceeds 50 GB limit" = true) ∧
    (∀ (gb : ℚ) (priv : Bool),
       strIncludes (notIndexedSection false gb priv) "exceeds 50 GB limit" = false) ∧
    (∀ (d : DiagSuccess) (q : String) (si : SearchIn), d.repoIndexed = false →
       formatNoResultsResponse (Diagnostics.ok d) q si
         = noResultsHeader q si ++ notIndexedSection d.isLarge d.repoSizeGB d.isPrivate
           ++ searchTips) := by
  have h1048 : ((1024 : ℚ) * 1024) = 1048576 := by norm_num
  refine ⟨?_, ?_, notIndexedSection_large_includes, notIndexedSection_small_excludes, ?_⟩
  · obtain ⟨d, hd, h2, h3, _⟩ := runSearchDiagnostics_ok info bp
    exact ⟨d, hd, by rw [h2, h1048], by rw [h3, h1048]⟩
  · intro hsize
    obtain ⟨d, hd, hgb, hlarge, _⟩ := runSearchDiagnostics_ok info bp
    have hL : d.isLarge = true := by
      rw [hlarge, hsize, decide_eq_true_eq]
      norm_num
    refine ⟨d, hd, hL, ?_⟩
    rw [hL]
    exact notIndexedSection_large_includes _ _
  · intro d q si h
    simp [formatNoResultsResponse, h]

/-- Witness for C7 at a 60 GB repository. -/
theorem runSearchDiagnostics_size_spec_witness :
    ∃ d, runSearchDiagnostics (Except.ok ⟨62914560, false, "main"⟩) (Except.error "x")
        = Diagnostics.ok d ∧
      d.isLarge = true ∧
      strIncludes (notIndexedSection d.isLarge d.repoSizeGB d.isPrivate)
        "exceeds 50 GB limit" = true :=
  (runSearchDiagnostics_size_spec ⟨62914560, false, "main"⟩ (Except.error "x")).2.1 (by decide)

set_option maxRecDepth 40000 in
/-- The diagnostics-based no-results response is never the plain listing:
the two texts already differ within their first fifteen characters. -/
theorem formatNoResults_ne_resultText (d : Diagnostics) (q : String) (si : SearchIn)
    (items : List SearchResultItem) :
    formatNoResultsResponse d q si ≠ resultText si q 0 items := by
  intro h
  have h15 : (formatNoResultsResponse d q si).data.take 15
      = (resultText si q 0 items).data.take 15 := by rw [h]
  have hd : (formatNoResultsResponse d q si).data.take 15
      = ("Found 0 files matching \"" : String).data.take 15 := by
    simp only [formatNoResultsResponse, noResultsHeader, String.data_append, List.append_assoc]
    rw [List.take_append_of_le_length (by decide)]
  rw [hd] at h15
  cases si
  case all =>
    rw [show resultText SearchIn.all q 0 items
          = "Found 0 files:\n\n" ++ formattedResults SearchIn.all q items from rfl,
      String.data_append, List.take_append_of_le_length (by decide)] at h15
    exact absurd h15 (by decide)
  case filename =>
    rw [show resultText SearchIn.filename q 0 items
          = "Found 0 files searching in filename:\n\n" ++ formattedResults SearchIn.filename q items
        from rfl,
      String.data_append, List.take_append_of_le_length (by decide)] at h15
    exact absurd h15 (by decide)
  case path =>
    rw [show resultText SearchIn.path q 0 items
          = "Found 0 files searching in path:\n\n" ++ formattedResults SearchIn.path q items
        from rfl,
      String.data_append, List.take_append_of_le_length (by decide)] at h15
    exact absurd h15 (by decide)
  case content =>
    rw [show resultText SearchIn.content q 0 items
          = "Found 0 files searching in content:\n\n" ++ formattedResults SearchIn.content q items
        from rfl,
      String.data_append, List.take_append_of_le_length (by decide)] at h15
    exact absurd h15 (by decide)

/-- Claim C4: when the search reports zero total matches, the handler
returns the diagnostics-based no-results response — the text is a function
of both completed probes — and the plain formatted listing is never the
returned text in that case. -/
theorem searchFiles_zero_diagnostics (cfg : GithubConfig) (q : String) (si : SearchIn)
    (response : SearchResults) (h : response.total_count = 0)
    (repoProbe : Except String RepoInfo) (basicProbe : Except String SearchResults) :
    searchFiles cfg q si (Except.ok response) repoProbe basicProbe
      = Except.ok (formatNoResultsResponse (runSearchDiagnostics repoProbe basicProbe) q si) ∧
    (∀ d items, formatNoResultsResponse d q si ≠ resultText si q 0 items) := by
  constructor
  · simp [searchFiles, handleRequest, h]
  · intro d items
    exact formatNoResults_ne_resultText d q si items

/-- Witness for C4 at a concrete zero-result response. -/
theorem searchFiles_zero_diagnostics_witness :
    searchFiles ⟨"t", "o", "r"⟩ "x" SearchIn.all (Except.ok ⟨[], 0⟩)
        (Except.error "down") (Except.error "down2")
      = Except.ok (formatNoResultsResponse
          (runSearchDiagnostics (Except.error "down") (Except.error "down2")) "x" SearchIn.all) ∧
    (∀ d items, formatNoResultsResponse d "x" SearchIn.all
        ≠ resultText SearchIn.all "x" 0 items) :=
  searchFiles_zero_diagnostics ⟨"t", "o", "r"⟩ "x" SearchIn.all ⟨[], 0⟩ rfl
    (Except.error "down") (Except.error "down2")

set_option maxRecDepth 40000 in
/-- Claim C8: for a non-empty item list the formatted output is the header
line `Found {total} files[ searching in {mode}]:` followed by exactly one
bullet line `- **{fileName}** ({filePath}) {reason}` per item, produced by
mapping over the items in response order. -/
theorem resultText_structure (si : SearchIn) (q : String) (total : Nat)
    (items : List SearchResultItem) (_h : items ≠ []) :
    resultText si q total items
      = ("Found " ++ toString total ++ " files" ++
          (match si with | SearchIn.all => "" | s => " searching in " ++ s.str) ++ ":")
        ++ "\n\n" ++
        String.intercalate "\n" (items.map (fun item =>
          "- **" ++ item.name ++ "** (" ++ item.path ++ ") " ++
            matchReason si q item.name item.path)) ∧
    (items.map (fun item =>
        "- **" ++ item.name ++ "** (" ++ item.path ++ ") " ++
          matchReason si q item.name item.path)).length = items.length := by
  constructor
  · apply String.ext
    have lit : (":\n\n" : String).data = (":" : String).data ++ ("\n\n" : String).data := by
      decide
    simp [resultText, formattedResults, String.data_append, List.append_assoc, lit]
  · exact List.length_map _ _

set_option maxRecDepth 40000 in
/-- Witness for C8 on a concrete two-item response. -/
theorem resultText_structure_witness :
    resultText SearchIn.all "a" 2 [⟨"x.md", "d/x.md"⟩, ⟨"y.md", "e/y.md"⟩]
      = ("Found " ++ toString 2 ++ " files" ++ "" ++ ":") ++ "\n\n" ++
        String.intercalate "\n"
          (([⟨"x.md", "d/x.md"⟩, ⟨"y.md", "e/y.md"⟩] : List SearchResultItem).map (fun item =>
            "- **" ++ item.name ++ "** (" ++ item.path ++ ") " ++
              matchReason SearchIn.all "a" item.name item.path)) :=
  (resultText_structure SearchIn.all "a" 2 [⟨"x.md", "d/x.md"⟩, ⟨"y.md", "e/y.md"⟩]
    (by decide)).1

/-- Claim C9: with diffs included, a file patch longer than 8000 characters
is emitted as exactly its first 8000 characters followed by the truncation
marker, a patch of at most 8000 characters is emitted unchanged, and the
per-file diff block renders a present non-empty patch through this
truncation. -/
theorem truncatePatch_spec (p : String) :
    (8000 < p.length →
       truncatePatch p
         = String.mk (p.data.take 8000) ++ "\n\n... (diff truncated for readability) ...") ∧
    (p.length ≤ 8000 → truncatePatch p = p) ∧
    (∀ (f : FileChange) (s : String), f.patch = some s → s.isEmpty = false →
       fileChangeText f
         = "#### " ++ f.filename ++ "\n" ++
             ("```diff\n" ++ truncatePatch s ++ "\n```\n\n")) := by
  refine ⟨?_, ?_, ?_⟩
  · intro h
    simp only [truncatePatch]
    rw [if_pos h]
    rfl
  · intro h
    simp only [truncatePatch]
    rw [if_neg (by omega)]
  · intro f s hp hs
    simp [fileChangeText, hp, hs]

/-- Witness for C9: a 9000-character patch is truncated, a short one kept. -/
theorem truncatePatch_spec_witness :
    truncatePatch (String.mk (List.replicate 9000 'a'))
      = String.mk ((String.mk (List.replicate 9000 'a')).data.take 8000) ++
          "\n\n... (diff truncated for readability) ..." ∧
    truncatePatch "ab" = "ab" :=
  ⟨(truncatePatch_spec (String.mk (List.replicate 9000 'a'))).1
      (by show 8000 < (List.replicate 9000 'a').length
          rw [List.length_replicate]
          omega),
   (truncatePatch_spec "ab").2.1 (by decide)⟩

/-- Claim C10: two `getCommitHistory` invocations differing only in the
`author` argument issue the identical commit-list request (which never
carries the author), hence fetch and format the same commits; the author
value reaches only the head text (the `from author` suffix of the header
or of the no-commits message), never the commit listing itself. -/
theorem getCommitHistory_author_display_only (cfg : GithubConfig) (days : Nat)
    (includeDiffs : Bool) (a₁ a₂ : Option String) (maxCommits page : Nat)
    (sinceISO : String) (listCommits : ListCommitsRequest → List CommitSummary)
    (detailFetch : String → DetailedCommit) :
    (getCommitHistory cfg days includeDiffs a₁ maxCommits page sinceISO
        listCommits detailFetch).1
      = (getCommitHistory cfg days includeDiffs a₂ maxCommits page sinceISO
          listCommits detailFetch).1 ∧
    (getCommitHistory cfg days includeDiffs a₁ maxCommits page sinceISO
        listCommits detailFetch).1
      = commitListRequest cfg sinceISO page maxCommits ∧
    (∀ a, (getCommitHistory cfg days includeDiffs a maxCommits page sinceISO
          listCommits detailFetch).2
        = getCommitHistoryHead days sinceISO a
            (listCommits (commitListRequest cfg sinceISO page maxCommits))
          ++ getCommitHistoryBody cfg includeDiffs maxCommits detailFetch
              (listCommits (commitListRequest cfg sinceISO page maxCommits))) := by
  refine ⟨rfl, rfl, fun a => ?_⟩
  simp only [getCommitHistory, getCommitHistoryHead, getCommitHistoryBody]
  cases hE : (listCommits (commitListRequest cfg sinceISO page maxCommits)).isEmpty
  · simp [hE]
  · simp [hE, str_append_empty]
